import Mathlib

/-!
Verification of the agent-reliability testing tool.

The development shallowly embeds the core pipeline of the tool:

* `load_prompts` and the prompts document (reliability_tester.py),
* the `LLMClient` constructor and `generate_text` / `chunk_and_process`
  (llm_client.py), with effectful calls modelled as explicit state
  passing over a call-trace state `TraceSt`,
* the evaluation engine (`evaluate_visibility`, `evaluate_repeatability`,
  `generate_report`, `test_prompt`, `run_tests`) and the report
  aggregator (`combine_reports`) with its regex score extraction.

Remote calls always succeed in the model (transport failures are
external collaborators out of scope); Python exceptions that the code
itself can raise (failed template rendering, out-of-range list
indexing) are modelled with `Option` / `Except`.
-/

namespace AgentReliability

/-! ## Data model -/

/-- Entry of the `prompts` list of a prompts document:
`id` and `description` are optional keys, `text` is required
(reliability_tester.py uses `prompt["text"]`, `prompt.get("id", ...)`,
`prompt.get("description", ...)`). -/
structure TestPrompt where
  id : Option String
  description : Option String
  text : String
deriving Repr, DecidableEq

/-- Parsed prompts document: the YAML mapping may or may not carry a
top-level `prompts` key holding a list (the code reads
`data.get("prompts", [])`). -/
structure PromptsDoc where
  prompts : Option (List TestPrompt)
deriving Repr, DecidableEq

/-- Configuration keys used by the tester (config.yaml). -/
structure Config where
  llm_provider : String
  llm_model : String
  repeat_count : Nat
  max_tokens_per_call : Nat
  report_path : Option String
deriving Repr, DecidableEq

/-- Load test prompts: `data.get("prompts", [])[:5]`
(reliability_tester.py, `load_prompts`). -/
def load_prompts (doc : PromptsDoc) : List TestPrompt :=
  (doc.prompts.getD []).take 5

/-! ## LLMClient construction (llm_client.py, `__init__`) -/

/-- Environment variables read at client construction. `none` models an
unset variable; `some ""` models a variable set to the empty string
(which Python `if not self.api_key` treats like an unset one). -/
structure ApiEnv where
  openai_key : Option String
  anthropic_key : Option String
deriving Repr, DecidableEq

/-- ASCII lowercasing of a string, modelling Python `str.lower()` on the
ASCII provider names the code compares against. -/
def strLower (s : String) : String :=
  String.mk (s.data.map Char.toLower)

/-- Constructed client state: `self.provider` (lowercased), `self.model`,
`self.api_key`, `self.api_url`. -/
structure LLMClient where
  provider : String
  model : String
  api_key : String
  api_url : String
deriving Repr, DecidableEq

/-- Truthiness test of Python on an optional string: `not x` is true for
`None` and for the empty string. -/
def optStrFalsy : Option String → Bool
  | none => true
  | some s => s = ""

/-- Embed `LLMClient.__init__`: lowercase the provider, select the
endpoint and the API-key environment variable, raise `ValueError` (here
`Except.error`) when the provider is unsupported or the key is missing
or empty. -/
def LLMClient.init (provider model : String) (env : ApiEnv) :
    Except String LLMClient :=
  let p := strLower provider
  if p = "openai" then
    if optStrFalsy env.openai_key then
      .error "OPENAI_API_KEY environment variable is required"
    else
      .ok ⟨p, model, env.openai_key.getD "",
           "https://api.openai.com/v1/chat/completions"⟩
  else if p = "anthropic" then
    if optStrFalsy env.anthropic_key then
      .error "ANTHROPIC_API_KEY environment variable is required"
    else
      .ok ⟨p, model, env.anthropic_key.getD "",
           "https://api.anthropic.com/v1/messages"⟩
  else
    .error ("Unsupported provider: " ++ provider)

/-- Whether an `Except` value is a success. -/
def exceptIsOk : Except String LLMClient → Bool
  | .ok _ => true
  | .error _ => false

/-! ## Effect model

The agent under test and the judge LLM are external collaborators; the
embedding renders every call observable in a trace state. `Env` fixes
what the collaborators answer (the call index makes repeated calls able
to differ, as real agents do), `TraceSt` records every call made. -/

/-- Behaviour of the external collaborators: `agentResp n q` is the
response of the agent to its `n`-th `execute_query` call when that call
sends `q`; `judgeResp n p` is the completion returned by the judge for
its `n`-th `generate_text` call when that call sends `p`. -/
structure Env where
  agentResp : Nat → String → String
  judgeResp : Nat → String → String

/-- Trace of all observable effects of a run: queries sent to the agent,
prompts (with their `max_tokens`) sent to the judge, the argument pairs
received by the repeatability evaluation, and `(path, content)` file
writes. -/
structure TraceSt where
  agentCalls : List String
  judgeCalls : List (String × Nat)
  repeatEvalReceived : List (String × List String)
  fileWrites : List (String × String)
deriving Repr, DecidableEq

/-- Embed `AgentWrapper.execute_query` (agent_wrapper.py): one call to
the agent under test, recorded in the trace. -/
def execute_query (env : Env) (q : String) (st : TraceSt) : String × TraceSt :=
  (env.agentResp st.agentCalls.length q,
   { st with agentCalls := st.agentCalls ++ [q] })

/-- Default of the `max_tokens` parameter of `generate_text`
(llm_client.py line 37: `max_tokens: int = 4000`). -/
def generateTextDefaultMaxTokens : Nat := 4000

/-- Embed `LLMClient.generate_text` (llm_client.py): one remote judge
call, recorded in the trace together with its `max_tokens` argument.
Transport errors are out of scope: the environment always answers. -/
def generate_text (env : Env) (prompt : String) (maxTokens : Nat)
    (st : TraceSt) : String × TraceSt :=
  (env.judgeResp st.judgeCalls.length prompt,
   { st with judgeCalls := st.judgeCalls ++ [(prompt, maxTokens)] })

/-! ## Template rendering

`str.format(**content)` of Python, restricted to the simple named
fields (`\x7bname\x7d`) and brace escapes (`\x7b\x7b`, `\x7d\x7d`) the
templates of this program use; a missing key, an unterminated field or
a stray closing brace renders `none` (Python: `KeyError` /
`ValueError`). -/

/-- Look a field name up in the content mapping (Python dict lookup;
dict literals have unique keys, so first match is the match). -/
def lookupField : List (String × String) → List Char → Option String
  | [], _ => none
  | (k, v) :: rest, name =>
      if k.data = name then some v else lookupField rest name

/-- Scanner mode of the renderer: outside a replacement field, or
inside one with the name characters read so far (in reverse). -/
inductive FmtMode where
  | normal : FmtMode
  | field : List Char → FmtMode

/-- Render a template character list against a content mapping: a
single left-to-right scan handling `\x7b\x7b` / `\x7d\x7d` escapes,
entering field mode at `\x7b`, substituting the looked-up value at the
closing `\x7d`, failing on a missing key, an unterminated field or a
stray closing brace. The output is accumulated in reverse in `acc`. -/
def formatGo (content : List (String × String)) :
    FmtMode → List Char → List Char → Option (List Char)
  | .normal, acc, [] => some acc.reverse
  | .normal, acc, '\x7b' :: '\x7b' :: rest =>
      formatGo content .normal ('\x7b' :: acc) rest
  | .normal, acc, '\x7d' :: '\x7d' :: rest =>
      formatGo content .normal ('\x7d' :: acc) rest
  | .normal, acc, '\x7b' :: rest => formatGo content (.field []) acc rest
  | .normal, _, '\x7d' :: _ => none
  | .normal, acc, c :: rest => formatGo content .normal (c :: acc) rest
  | .field _, _, [] => none
  | .field name, acc, '\x7d' :: rest =>
      match lookupField content name.reverse with
      | some v => formatGo content .normal (List.reverseAux v.data acc) rest
      | none => none
  | .field name, acc, c :: rest =>
      formatGo content (.field (c :: name)) acc rest

/-- Render a template character list, starting outside any field with
an empty accumulator. -/
def formatChars (content : List (String × String)) (l : List Char) :
    Option (List Char) :=
  formatGo content .normal [] l

/-- Embed `prompt_template.format(**content)`. -/
def formatTemplate (template : String) (content : List (String × String)) :
    Option String :=
  (formatChars content template.data).map String.mk

/-! ## Chunking (llm_client.py, `chunk_and_process`) -/

/-- The fixed summarization prompt wrapped around an oversized field
value. -/
def summaryPromptFor (value : String) : String :=
  "Please summarize the following content concisely while preserving all key information:\n\n"
    ++ value

/-- The note prepended to a re-rendered prompt after summarization. -/
def chunkNote : String :=
  "Note: Some parts of the content have been summarized for processing.\n\n"

/-- Character count with an accumulator (the theorem `strLen_eq` proves
it equal to `String.length`; the accumulator form keeps evaluation on
long strings shallow). -/
def strLenAux : List Char → Nat → Nat
  | [], n => n
  | _ :: rest, n => strLenAux rest (n + 1)

/-- Length of a string, `len(s)` of Python. -/
def strLen (s : String) : Nat := strLenAux s.data 0

/-- Size estimate check of `chunk_and_process`:
`estimated_tokens = len(prompt) / 4 <= max_tokens_per_chunk`. The
Python float division by 4 is exact at these sizes, and over the
rationals `len / 4 ≤ M` holds exactly when `len ≤ 4 * M`; the theorem
`withinBudget_iff_rat` below proves this equivalence. -/
def withinBudget (promptLen maxTokensPerChunk : Nat) : Bool :=
  promptLen ≤ 4 * maxTokensPerChunk

/-- Field length threshold above which `chunk_and_process` summarizes a
field (`if len(value) > 8000`). -/
def largeFieldThreshold : Nat := 8000

/-- Output cap passed to the summarization calls
(`max_tokens=2000`). -/
def summaryMaxTokens : Nat := 2000

/-- The summarization loop of `chunk_and_process`: walk the content
mapping in order; every field longer than 8000 characters is replaced
by a judge summary (one `generate_text` call capped at 2000 tokens),
every other field passes through unchanged. -/
def summarizeFields (env : Env) :
    List (String × String) → TraceSt → List (String × String) × TraceSt
  | [], st => ([], st)
  | (k, v) :: rest, st =>
      if strLen v > largeFieldThreshold then
        let r := generate_text env (summaryPromptFor v) summaryMaxTokens st
        let tail := summarizeFields env rest r.2
        ((k, r.1) :: tail.1, tail.2)
      else
        let tail := summarizeFields env rest st
        ((k, v) :: tail.1, tail.2)

/-- Embed `LLMClient.chunk_and_process`: render the template, estimate
`len/4` tokens; within budget, one direct `generate_text` call on the
verbatim rendered prompt (default `max_tokens`); over budget, summarize
the oversized fields, re-render, prepend the note, and make one final
`generate_text` call (default `max_tokens`), with no recursive
re-chunking. `none` models the Python exception of a failed
`str.format`. -/
def chunk_and_process (env : Env) (prompt_template : String)
    (content : List (String × String)) (max_tokens_per_chunk : Nat)
    (st : TraceSt) : Option String × TraceSt :=
  match formatTemplate prompt_template content with
  | none => (none, st)
  | some prompt =>
      if withinBudget (strLen prompt) max_tokens_per_chunk then
        let r := generate_text env prompt generateTextDefaultMaxTokens st
        (some r.1, r.2)
      else
        let sc := summarizeFields env content st
        match formatTemplate prompt_template sc.1 with
        | none => (none, sc.2)
        | some sp =>
            let r := generate_text env (chunkNote ++ sp)
              generateTextDefaultMaxTokens sc.2
            (some r.1, r.2)

/-! ## Evaluation-prompt templates (reliability_tester.py, `_initialize_prompts`) -/

/-- The visibility rubric template (reliability_tester.py lines 45-75), verbatim; braces and apostrophes written as escapes. -/
def visibility_prompt : String :=
  "\nYou are an expert evaluator of AI agent reliability. Your task is to evaluate the visibility of an agent\x27s response.\n\nVisibility means how clearly the agent explains its process, assumptions, and data sources.\n\nPlease analyze the following user query and agent response:\n\nUSER QUERY:\n\x7bquery\x7d\n\nAGENT RESPONSE:\n\x7bresponse\x7d\n\nEvaluate the response on a scale of 1-10 for visibility, considering:\n1. Does the agent clearly indicate what data sources it\x27s using?\n2. Does the agent explain its reasoning steps?\n3. Does the agent make its assumptions explicit?\n4. Would a user understand how conclusions were reached?\n5. Does the agent provide enough context to understand the scope of its answer?\n6. Is it clear what tools or functions the agent might be using?\n7. If calculations were performed, are they shown or explained?\n8. If there are limitations in the response, are they acknowledged?\n9. Would a domain expert be able to verify the agent\x27s work based on what\x27s shown?\n10. Does the agent show evidence of its information retrieval or generation process?\n\nPlease provide your evaluation in this format:\n- Visibility Score: [1-10]\n- Strengths: [list what the agent does well for visibility]\n- Weaknesses: [list where the agent could improve visibility]\n- Detailed Analysis: [your analysis of the visibility]\n"

/-- The repeatability rubric template (reliability_tester.py lines 78-120), verbatim. -/
def repeatability_prompt : String :=
  "\nYou are an expert evaluator of AI agent reliability. Your task is to evaluate the repeatability of an agent\x27s responses.\n\nRepeatability means how consistent the agent\x27s responses are when given the same input multiple times.\n\nPlease analyze the following user query and the 5 agent responses to that same query:\n\nUSER QUERY:\n\x7bquery\x7d\n\nRESPONSE 1:\n\x7bresponse_1\x7d\n\nRESPONSE 2:\n\x7bresponse_2\x7d\n\nRESPONSE 3:\n\x7bresponse_3\x7d\n\nRESPONSE 4:\n\x7bresponse_4\x7d\n\nRESPONSE 5:\n\x7bresponse_5\x7d\n\nEvaluate the consistency on a scale of 1-10 for repeatability, considering:\n1. Do the core answers remain the same across responses?\n2. Are there any contradictions between responses?\n3. If there are differences, are they explained by randomness that\x27s part of the agent\x27s process?\n4. Do all responses use similar reasoning approaches?\n5. Are data sources consistent across responses?\n6. If calculations are performed, do they yield similar results?\n7. Is the structure and format of responses consistent?\n8. Are the steps taken by the agent consistent across responses?\n9. If there are variations, would they lead to different user decisions?\n10. Is the level of detail consistent across responses?\n\nPlease provide your evaluation in this format:\n- Repeatability Score: [1-10]\n- Consistency Analysis: [analysis of how consistent the responses are]\n- Notable Differences: [highlight any important differences between responses]\n- Impact Assessment: [how differences might impact user trust or decision-making]\n"

/-- The synthesis rubric template (reliability_tester.py lines 123-145), verbatim. -/
def report_prompt : String :=
  "\nYou are an expert evaluator of AI agent reliability. Please create a comprehensive reliability report based on the visibility and repeatability evaluations.\n\nVISIBILITY EVALUATION:\n\x7bvisibility_evaluation\x7d\n\nREPEATABILITY EVALUATION:\n\x7brepeatability_evaluation\x7d\n\nCreate a reliability report with these sections:\n1. Executive Summary: Brief overview of the agent\x27s reliability with an overall score out of 10 (equal weighting between visibility and repeatability).\n2. Visibility Analysis: Detailed assessment of how well the agent explains its process.\n3. Repeatability Analysis: Detailed assessment of the agent\x27s consistency.\n4. Key Reliability Issues: Most important problems affecting reliability.\n5. Recommendations: Specific suggestions to improve the agent\x27s reliability.\n6. Conclusion: Final thoughts on trustworthiness and usability.\n\nFor the overall reliability score, calculate it as: (Visibility Score + Repeatability Score) / 2\n\nIMPORTANT: Always clearly state the overall reliability score in this exact format: \"Overall Reliability Score: X.X/10\" (where X.X is the numerical score).\n\nThe report should be formatted in Markdown and be detailed enough to help the tester understand their agent\x27s strengths and weaknesses.\n"


/-! ## Score extraction (reliability_tester.py, `_combine_reports`)

The six patterns of `score_patterns` share one shape: a literal phrase
(matched case-insensitively, `re.IGNORECASE`), for the first four
followed by a lazy gap `.*?` (any characters except newline), then the
captured group `\d+(?:\.\d+)?`, optionally followed by the literal
`/10`. The functions below implement `re.search` for exactly this
shape: leftmost starting position wins, the lazy gap grows one
character at a time, the digit runs are greedy, the optional fraction
is preferred present, and the engine backtracks over the fraction when
a required `/10` does not follow. Digits are the ASCII digits the
reports of this program contain. -/

/-- Case-insensitive prefix test: does the (lowercase) phrase occur at
the head of the text? -/
def phraseAt : List Char → List Char → Bool
  | [], _ => true
  | _ :: _, [] => false
  | pc :: ps, c :: cs => pc = c.toLower && phraseAt ps cs

/-- Split off the maximal leading run of ASCII digits. -/
def takeDigits : List Char → List Char × List Char
  | [] => ([], [])
  | c :: rest =>
      if c.isDigit then
        let r := takeDigits rest
        (c :: r.1, r.2)
      else ([], c :: rest)

/-- Does the text start with the literal `/10`? -/
def slash10At : List Char → Bool
  | '/' :: '1' :: '0' :: _ => true
  | _ => false

/-- Match `(\d+(?:\.\d+)?)` at the head of the text, followed by `/10`
when `slash10` is set; returns the captured group. The fraction is
greedy-preferred and dropped on backtracking when the required `/10`
does not follow it. -/
def matchNumber (slash10 : Bool) (s : List Char) : Option (List Char) :=
  let d := takeDigits s
  if d.1 = [] then none
  else
    let frac : Option (List Char × List Char) :=
      match d.2 with
      | '.' :: r2 =>
          let f := takeDigits r2
          if f.1 = [] then none else some (d.1 ++ '.' :: f.1, f.2)
      | _ => none
    if slash10 then
      match frac with
      | some g =>
          if slash10At g.2 then some g.1
          else if slash10At d.2 then some d.1
          else none
      | none => if slash10At d.2 then some d.1 else none
    else
      match frac with
      | some g => some g.1
      | none => some d.1

/-- The lazy gap `.*?`: try the number at each successive position,
never crossing a newline (`.` does not match `\n`). -/
def scanGap (slash10 : Bool) : List Char → Option (List Char)
  | [] => none
  | c :: rest =>
      match matchNumber slash10 (c :: rest) with
      | some g => some g
      | none => if c = '\n' then none else scanGap slash10 rest

/-- Search: try the pattern anchored at each starting position, left to
right (`re.search`); `gap` selects whether a lazy `.*?` separates the
phrase from the number. -/
def searchPattern (phrase : List Char) (gap slash10 : Bool) :
    List Char → Option (List Char)
  | [] => none
  | c :: rest =>
      match
        (if phraseAt phrase (c :: rest) then
          (let tail := (c :: rest).drop phrase.length
           if gap then scanGap slash10 tail else matchNumber slash10 tail)
         else none) with
      | some g => some g
      | none => searchPattern phrase gap slash10 rest

/-- The ordered pattern list of `_combine_reports` (lines 336-343):
`(phrase, has lazy gap, requires /10)`. -/
def score_patterns : List (String × Bool × Bool) :=
  [("overall score", true, true),
   ("overall score", true, false),
   ("reliability score", true, true),
   ("reliability score", true, false),
   ("score of ", false, true),
   ("score of ", false, false)]

/-- Run one pattern against a report text: the first captured group of
the leftmost match, or `none`. -/
def runPattern (p : String × Bool × Bool) (report : String) : Option String :=
  (searchPattern p.1.data p.2.1 p.2.2 report.data).map String.mk

/-- Try the patterns in order, first match wins. -/
def firstMatch : List (String × Bool × Bool) → String → Option String
  | [], _ => none
  | p :: ps, report =>
      match runPattern p report with
      | some g => some g
      | none => firstMatch ps report

/-- The score cell of the summary table: first captured group of the
first matching pattern, `"N/A"` when none matches (lines 345-350). -/
def extractScore (report : String) : String :=
  (firstMatch score_patterns report).getD "N/A"

/-! ## Evaluation engine (reliability_tester.py) -/

/-- Embed `evaluate_visibility`: render the visibility template with
`query` and `response` and route through the chunking path. -/
def evaluate_visibility (cfg : Config) (env : Env) (query response : String)
    (st : TraceSt) : Option String × TraceSt :=
  chunk_and_process env visibility_prompt
    [("query", query), ("response", response)] cfg.max_tokens_per_call st

/-- Embed `evaluate_repeatability`: record the received arguments, then
build the `prompt_data` dict by positional indexing `responses[0]` ..
`responses[4]` (Python raises `IndexError`, here `none`, when fewer
than 5 responses are supplied, before any judge call is made), and
route through the chunking path. -/
def evaluate_repeatability (cfg : Config) (env : Env) (query : String)
    (responses : List String) (st : TraceSt) : Option String × TraceSt :=
  let st0 := { st with
    repeatEvalReceived := st.repeatEvalReceived ++ [(query, responses)] }
  match responses.get? 0, responses.get? 1, responses.get? 2,
        responses.get? 3, responses.get? 4 with
  | some r1, some r2, some r3, some r4, some r5 =>
      chunk_and_process env repeatability_prompt
        [("query", query), ("response_1", r1), ("response_2", r2),
         ("response_3", r3), ("response_4", r4), ("response_5", r5)]
        cfg.max_tokens_per_call st0
  | _, _, _, _, _ => (none, st0)

/-- Embed `generate_report`: render the synthesis template and route
through the chunking path. -/
def generate_report (cfg : Config) (env : Env)
    (visibility_eval repeatability_eval : String) (st : TraceSt) :
    Option String × TraceSt :=
  chunk_and_process env report_prompt
    [("visibility_evaluation", visibility_eval),
     ("repeatability_evaluation", repeatability_eval)]
    cfg.max_tokens_per_call st

/-- Result of `test_prompt` for one prompt. -/
structure PromptResult where
  prompt : TestPrompt
  visibility_evaluation : String
  repeatability_evaluation : String
  report : String
deriving Repr, DecidableEq

/-- The repeatability loop of `test_prompt`: `repeat_count` successive
`execute_query` calls with the same query, collected in order (the
1-second sleeps of the source have no observable effect here). -/
def collectResponses (env : Env) (query : String) :
    Nat → TraceSt → List String × TraceSt
  | 0, st => ([], st)
  | n + 1, st =>
      let r := execute_query env query st
      let rest := collectResponses env query n r.2
      (r.1 :: rest.1, rest.2)

/-- Embed `test_prompt`: one visibility probe call and its evaluation,
then `repeat_count` repeatability probe calls on the same query text
and their evaluation, then the synthesis report, strictly in that
order. -/
def test_prompt (cfg : Config) (env : Env) (p : TestPrompt)
    (st : TraceSt) : Option PromptResult × TraceSt :=
  let query := p.text
  let vr := execute_query env query st
  match evaluate_visibility cfg env query vr.1 vr.2 with
  | (none, st2) => (none, st2)
  | (some visibility_evaluation, st2) =>
      let rr := collectResponses env query cfg.repeat_count st2
      match evaluate_repeatability cfg env query rr.1 rr.2 with
      | (none, st3) => (none, st3)
      | (some repeatability_evaluation, st3) =>
          match generate_report cfg env visibility_evaluation
              repeatability_evaluation st3 with
          | (none, st4) => (none, st4)
          | (some report, st4) =>
              (some ⟨p, visibility_evaluation, repeatability_evaluation,
                     report⟩, st4)

/-! ## Report aggregation (reliability_tester.py, `_combine_reports`,
`run_tests`) -/

/-- Prompt id cell: `result["prompt"].get("id", "Unknown")`. -/
def promptIdOf (p : TestPrompt) : String := p.id.getD "Unknown"

/-- Default description: `result["prompt"]["text"][:30] + "..."`. -/
def defaultDescription (p : TestPrompt) : String :=
  String.mk (p.text.data.take 30) ++ "..."

/-- Description cell:
`result["prompt"].get("description", text[:30] + "...")`. -/
def promptDescOf (p : TestPrompt) : String :=
  p.description.getD (defaultDescription p)

/-- One summary-table row (line 352). -/
def summaryRow (res : PromptResult) : String :=
  "| " ++ promptIdOf res.prompt ++ " | " ++ promptDescOf res.prompt
    ++ " | " ++ extractScore res.report ++ " |\n"

/-- One per-prompt section (lines 357-362). -/
def promptSection (res : PromptResult) : String :=
  "## Prompt: " ++ promptIdOf res.prompt ++ "\n\n**Query**: "
    ++ res.prompt.text ++ "\n\n" ++ res.report ++ "\n\n---\n\n"

/-- Header and summary-table heading of the combined report
(lines 318-329); `date` stands for the `time.strftime` timestamp. -/
def reportHeader (cfg : Config) (date : String) (count : Nat) : String :=
  "# Agent Reliability Testing Report\n\n## Overview\n\n- **Date**: "
    ++ date
    ++ "\n- **LLM Provider**: " ++ cfg.llm_provider
    ++ "\n- **LLM Model**: " ++ cfg.llm_model
    ++ "\n- **Number of prompts tested**: " ++ toString count
    ++ "\n\n## Executive Summary\n\n"
    ++ "Below is an overview of the reliability testing results:\n\n"
    ++ "| Prompt ID | Prompt Description | Reliability Score |\n"
    ++ "|-----------|-------------------|-------------------|\n"

/-- Embed `_combine_reports`. -/
def combine_reports (cfg : Config) (date : String)
    (results : List PromptResult) : String :=
  reportHeader cfg date results.length
    ++ String.join (results.map summaryRow) ++ "\n"
    ++ String.join (results.map promptSection)

/-- One step of the prompt loop: thread the result of `test_prompt`
into the processing of the remaining prompts, aborting (as a
propagated Python exception would) when the prompt failed. -/
def runAllCons (head : Option PromptResult × TraceSt)
    (rest : TraceSt → Option (List PromptResult) × TraceSt) :
    Option (List PromptResult) × TraceSt :=
  match head with
  | (none, st2) => (none, st2)
  | (some r, st2) =>
      match rest st2 with
      | (none, st3) => (none, st3)
      | (some rs, st3) => (some (r :: rs), st3)

/-- The prompt loop of `run_tests`: process the prompts strictly
sequentially, aborting on the first failing prompt. -/
def runAll (cfg : Config) (env : Env) :
    List TestPrompt → TraceSt → Option (List PromptResult) × TraceSt
  | [], st => (some [], st)
  | p :: ps, st => runAllCons (test_prompt cfg env p st) (runAll cfg env ps)

/-- The fail-fast message of `run_tests` for an empty prompt list. -/
def noPromptsError : String :=
  "Error: No prompts found in the specified file."

/-- Default output path: `self.config.get("report_path",
"agent_reliability_report.md")`. -/
def defaultReportPath : String := "agent_reliability_report.md"

/-- Embed `run_tests`: load the prompts, fail fast on an empty list,
otherwise test every prompt, combine the reports, write the combined
report to the configured path and return it. -/
def run_tests (cfg : Config) (env : Env) (doc : PromptsDoc)
    (date : String) (st : TraceSt) : Option String × TraceSt :=
  let prompts := load_prompts doc
  if prompts.isEmpty then (some noPromptsError, st)
  else
    match runAll cfg env prompts st with
    | (none, st2) => (none, st2)
    | (some results, st2) =>
        let combined_report := combine_reports cfg date results
        let report_path := cfg.report_path.getD defaultReportPath
        (some combined_report,
         { st2 with fileWrites :=
            st2.fileWrites ++ [(report_path, combined_report)] })

/-- Empty trace, the state a fresh run starts from. -/
def emptyTrace : TraceSt := ⟨[], [], [], []⟩

/-- Sample collaborator behaviour used to exercise the pipeline on
concrete inputs: a fixed agent answer and a fixed judge answer. -/
def constEnv : Env :=
  ⟨fun _ _ => "the agent answer", fun _ _ => "Overall Reliability Score: 9.0/10"⟩

/-- Sample configuration used on concrete inputs. -/
def sampleConfig : Config := ⟨"openai", "gpt-4", 5, 12000, none⟩

/-- Sample prompts document with six entries, one more than the load
truncates to. -/
def sampleDoc6 : PromptsDoc :=
  ⟨some [⟨some "p1", none, "t1"⟩, ⟨some "p2", none, "t2"⟩,
         ⟨some "p3", none, "t3"⟩, ⟨some "p4", none, "t4"⟩,
         ⟨some "p5", none, "t5"⟩, ⟨some "p6", none, "t6"⟩]⟩

/-- Sample one-entry prompts document. -/
def sampleDoc1 : PromptsDoc := ⟨some [⟨some "p1", none, "t1"⟩]⟩

/-- The judge calls issued by the summarization pass, in content
order: one call per field longer than the threshold, each with the
fixed summary prompt and the 2000-token cap. -/
def summaryCalls (content : List (String × String)) : List (String × Nat) :=
  (content.filter (fun kv => largeFieldThreshold < strLen kv.2)).map
    (fun kv => (summaryPromptFor kv.2, summaryMaxTokens))

/-! ## Theorems -/

set_option maxRecDepth 100000

/-- The integer form of the budget check agrees with the exact rational
reading of the source comparison `len(prompt) / 4 <= budget`. -/
theorem withinBudget_iff_rat (a b : Nat) :
    withinBudget a b = true ↔ (a : ℚ) / 4 ≤ (b : ℚ) := by
  rw [withinBudget, div_le_iff₀ (by norm_num : (0:ℚ) < 4), decide_eq_true_eq]
  constructor
  · intro h
    have h2 : (a : ℚ) ≤ ((4 * b : ℕ) : ℚ) := by exact_mod_cast h
    push_cast at h2
    linarith
  · intro h
    have h2 : (a : ℚ) ≤ ((4 * b : ℕ) : ℚ) := by push_cast; linarith
    exact_mod_cast h2

/-- C5: for every prompts document, `load_prompts` returns the first at
most 5 entries of the `prompts` list of the document, in their original
order and unmodified, with no entry from beyond position 5 (the result
is a prefix of the list of length `min 5 n`); a document missing the
`prompts` key yields the empty sequence. -/
theorem load_prompts_first_five (doc : PromptsDoc) :
    (load_prompts doc).length = min 5 (doc.prompts.getD []).length
    ∧ (∀ i (h1 : i < (load_prompts doc).length)
         (h2 : i < (doc.prompts.getD []).length),
         (load_prompts doc).get ⟨i, h1⟩ = (doc.prompts.getD []).get ⟨i, h2⟩)
    ∧ (∃ rest, doc.prompts.getD [] = load_prompts doc ++ rest)
    ∧ (doc.prompts = none → load_prompts doc = []) := by
  refine ⟨?_, ?_, ?_, ?_⟩
  · simp [load_prompts]
  · intro i h1 h2
    simp only [load_prompts, List.get_eq_getElem, List.getElem_take]
  · exact ⟨(doc.prompts.getD []).drop 5, (List.take_append_drop 5 _).symm⟩
  · intro h
    simp [load_prompts, h]

/-- Witness for C5: entry 3 of a six-entry document survives at
position 3. -/
theorem load_prompts_first_five_witness :
    (load_prompts sampleDoc6).get ⟨2, by decide⟩ = ⟨some "p3", none, "t3"⟩ := by
  have h := (load_prompts_first_five sampleDoc6).2.1 2 (by decide) (by decide)
  exact h.trans (by decide)

/-- C9 counterexample: the provider string `"openai"` lowercases to
`"openai"` and `OPENAI_API_KEY` is set (to the empty string, which the
Python truthiness check `if not self.api_key` rejects), yet
construction raises instead of succeeding. -/
theorem llmclient_init_empty_key_counterexample :
    strLower "openai" = "openai"
    ∧ (⟨some "", none⟩ : ApiEnv).openai_key ≠ none
    ∧ LLMClient.init "openai" "gpt-4" ⟨some "", none⟩
        = .error "OPENAI_API_KEY environment variable is required" := by
  refine ⟨by decide, by simp, by rfl⟩

/-- C9 (amended): `LLMClient` construction is case-insensitive in the
provider name; when the provider lowercases to `"openai"` or
`"anthropic"`, construction succeeds exactly when the corresponding
API-key environment variable is set to a non-empty string and raises
the descriptive key error otherwise (unset or empty), and for every
provider string whose lowercasing is neither, construction raises a
descriptive error immediately at construction time. -/
theorem llmclient_init_spec (provider model : String) (env : ApiEnv) :
    (strLower provider = "openai" →
      ((∀ k, env.openai_key = some k → k ≠ "" →
          LLMClient.init provider model env
            = .ok ⟨"openai", model, k,
                   "https://api.openai.com/v1/chat/completions"⟩)
       ∧ ((env.openai_key = none ∨ env.openai_key = some "") →
          LLMClient.init provider model env
            = .error "OPENAI_API_KEY environment variable is required")))
    ∧ (strLower provider = "anthropic" →
      ((∀ k, env.anthropic_key = some k → k ≠ "" →
          LLMClient.init provider model env
            = .ok ⟨"anthropic", model, k,
                   "https://api.anthropic.com/v1/messages"⟩)
       ∧ ((env.anthropic_key = none ∨ env.anthropic_key = some "") →
          LLMClient.init provider model env
            = .error "ANTHROPIC_API_KEY environment variable is required")))
    ∧ (strLower provider ≠ "openai" → strLower provider ≠ "anthropic" →
        LLMClient.init provider model env
          = .error ("Unsupported provider: " ++ provider)) := by
  refine ⟨?_, ?_, ?_⟩
  · intro hp
    constructor
    · intro k hk hne
      simp [LLMClient.init, hp, hk, optStrFalsy, hne]
    · intro hk
      rcases hk with hk | hk <;> simp [LLMClient.init, hp, hk, optStrFalsy]
  · intro hp
    have hne : strLower provider ≠ "openai" := by rw [hp]; decide
    constructor
    · intro k hk hkne
      simp [LLMClient.init, hp, hne, hk, optStrFalsy, hkne]
    · intro hk
      rcases hk with hk | hk <;> simp [LLMClient.init, hp, hne, hk, optStrFalsy]
  · intro h1 h2
    simp [LLMClient.init, h1, h2]

/-- Witness for C9: mixed-case provider names succeed with non-empty
keys; an unknown provider fails with the descriptive message. -/
theorem llmclient_init_spec_witness :
    LLMClient.init "OpenAI" "gpt-4" ⟨some "sk-test", none⟩
      = .ok ⟨"openai", "gpt-4", "sk-test",
             "https://api.openai.com/v1/chat/completions"⟩
    ∧ LLMClient.init "ANTHROPIC" "claude-3" ⟨none, some "key2"⟩
      = .ok ⟨"anthropic", "claude-3", "key2",
             "https://api.anthropic.com/v1/messages"⟩
    ∧ LLMClient.init "gemini" "g" ⟨some "a", some "b"⟩
      = .error ("Unsupported provider: " ++ "gemini") :=
  ⟨((llmclient_init_spec "OpenAI" "gpt-4" ⟨some "sk-test", none⟩).1
      (by decide)).1 "sk-test" rfl (by decide),
   ((llmclient_init_spec "ANTHROPIC" "claude-3" ⟨none, some "key2"⟩).2.1
      (by decide)).1 "key2" rfl (by decide),
   (llmclient_init_spec "gemini" "g" ⟨some "a", some "b"⟩).2.2
      (by decide) (by decide)⟩

/-- C6: for every prompts document whose `prompts` key is missing or
whose prompt list is empty, `run_tests` returns the explanatory error
string and leaves the trace exactly as it was: no `execute_query`
call, no judge call, no file write. -/
theorem run_tests_empty_prompts (cfg : Config) (env : Env)
    (doc : PromptsDoc) (date : String) (st : TraceSt)
    (h : doc.prompts = none ∨ doc.prompts = some []) :
    run_tests cfg env doc date st = (some noPromptsError, st) := by
  rcases h with h | h <;> simp [run_tests, load_prompts, h]

/-- Witness for C6 at a key-less document. -/
theorem run_tests_empty_prompts_witness :
    run_tests sampleConfig constEnv ⟨none⟩ "2026-10-12" emptyTrace
      = (some noPromptsError, emptyTrace) :=
  run_tests_empty_prompts sampleConfig constEnv ⟨none⟩ "2026-10-12" emptyTrace
    (Or.inl rfl)

/-- C7: with fewer than 5 responses, `evaluate_repeatability` fails on
the positional index lookups building the template fields, before any
judge call (and any agent call) is made; with 5 or more responses the
lookups succeed and the repeatability template is rendered through the
chunking path on exactly the first five. -/
theorem evaluate_repeatability_requires_five (cfg : Config) (env : Env)
    (q : String) (rs : List String) (st : TraceSt)
    (h : rs.length < 5) :
    ((evaluate_repeatability cfg env q rs st).1 = none
     ∧ ((evaluate_repeatability cfg env q rs st).2).judgeCalls = st.judgeCalls
     ∧ ((evaluate_repeatability cfg env q rs st).2).agentCalls = st.agentCalls)
    ∧ (∀ r1 r2 r3 r4 r5 rest,
        evaluate_repeatability cfg env q (r1 :: r2 :: r3 :: r4 :: r5 :: rest) st
          = chunk_and_process env repeatability_prompt
              [("query", q), ("response_1", r1), ("response_2", r2),
               ("response_3", r3), ("response_4", r4), ("response_5", r5)]
              cfg.max_tokens_per_call
              { st with repeatEvalReceived :=
                  st.repeatEvalReceived
                    ++ [(q, r1 :: r2 :: r3 :: r4 :: r5 :: rest)] }) := by
  constructor
  · rcases rs with _ | ⟨a, _ | ⟨b, _ | ⟨c, _ | ⟨d, _ | ⟨e, tl⟩⟩⟩⟩⟩
    · simp [evaluate_repeatability]
    · simp [evaluate_repeatability]
    · simp [evaluate_repeatability]
    · simp [evaluate_repeatability]
    · simp [evaluate_repeatability]
    · simp only [List.length_cons] at h
      omega
  · intro r1 r2 r3 r4 r5 rest
    simp [evaluate_repeatability]

/-- Witness for C7 at a three-response list. -/
theorem evaluate_repeatability_requires_five_witness :
    (evaluate_repeatability sampleConfig constEnv "q"
        ["r1", "r2", "r3"] emptyTrace).1 = none :=
  (evaluate_repeatability_requires_five sampleConfig constEnv "q"
      ["r1", "r2", "r3"] emptyTrace (by decide)).1.1

/-- The accumulator character count agrees with `String.length`. -/
theorem strLen_eq (s : String) : strLen s = s.length := by
  have aux : ∀ (l : List Char) (n : Nat), strLenAux l n = l.length + n := by
    intro l
    induction l with
    | nil => intro n; simp [strLenAux]
    | cons c rest ih =>
      intro n
      rw [strLenAux, ih, List.length_cons]
      omega
  rw [strLen, aux, String.length]
  omega

/-- The summarization pass appends exactly the summary judge calls to
the trace and changes nothing else in it. -/
theorem summarizeFields_trace (env : Env) (content : List (String × String)) :
    ∀ st : TraceSt,
      (summarizeFields env content st).2
        = { st with judgeCalls := st.judgeCalls ++ summaryCalls content } := by
  induction content with
  | nil =>
    intro st
    obtain ⟨a, j, re, f⟩ := st
    simp [summarizeFields, summaryCalls]
  | cons hd rest ih =>
    intro st
    obtain ⟨a, j, re, f⟩ := st
    obtain ⟨k, v⟩ := hd
    by_cases hl : largeFieldThreshold < strLen v
    · simp [summarizeFields, hl, generate_text, ih, summaryCalls,
            List.filter_cons]
    · simp [summarizeFields, hl, ih, summaryCalls, List.filter_cons]

/-- The summarization pass preserves the number of fields. -/
theorem summarizeFields_length (env : Env) (content : List (String × String)) :
    ∀ st : TraceSt,
      (summarizeFields env content st).1.length = content.length := by
  induction content with
  | nil => intro st; simp [summarizeFields]
  | cons hd rest ih =>
    intro st
    obtain ⟨k, v⟩ := hd
    by_cases hl : largeFieldThreshold < strLen v
    · simp [summarizeFields, hl, ih]
    · simp [summarizeFields, hl, ih]

/-- Fields at or below the threshold pass through the summarization
pass unchanged, and every field keeps its key and position. -/
theorem summarizeFields_fields (env : Env) (content : List (String × String)) :
    ∀ (st : TraceSt) (i : Nat) (kv : String × String),
      content.get? i = some kv →
      ((strLen kv.2 ≤ largeFieldThreshold →
          (summarizeFields env content st).1.get? i = some kv)
       ∧ ∃ v, (summarizeFields env content st).1.get? i = some (kv.1, v)) := by
  induction content with
  | nil => intro st i kv h; simp at h
  | cons hd rest ih =>
    intro st i kv h
    obtain ⟨k, v⟩ := hd
    by_cases hl : largeFieldThreshold < strLen v
    · cases i with
      | zero =>
        simp only [List.get?] at h
        injection h with h
        subst h
        constructor
        · intro hle
          exact absurd hl (by simpa using hle)
        · exact ⟨(generate_text env (summaryPromptFor v)
              summaryMaxTokens st).1, by simp [summarizeFields, hl]⟩
      | succ n =>
        simp only [List.get?] at h
        have := ih ((generate_text env (summaryPromptFor v)
          summaryMaxTokens st).2) n kv h
        simpa [summarizeFields, hl] using this
    · cases i with
      | zero =>
        simp only [List.get?] at h
        injection h with h
        subst h
        constructor
        · intro _
          simp [summarizeFields, hl]
        · exact ⟨v, by simp [summarizeFields, hl]⟩
      | succ n =>
        simp only [List.get?] at h
        have := ih st n kv h
        simpa [summarizeFields, hl] using this

/-- C4: when the rendered prompt fits the budget, `chunk_and_process`
makes exactly one `generate_text` call whose prompt is the verbatim
rendered template, with the default output cap, no summarization call
and no note prefix, and returns the result of that call. -/
theorem chunk_within_budget (env : Env) (tpl : String)
    (content : List (String × String)) (M : Nat) (st : TraceSt)
    (h1 : (formatTemplate tpl content).isSome = true)
    (h2 : withinBudget (strLen ((formatTemplate tpl content).getD "")) M
            = true) :
    chunk_and_process env tpl content M st
      = (some (env.judgeResp st.judgeCalls.length
                ((formatTemplate tpl content).getD "")),
         { st with judgeCalls := st.judgeCalls
            ++ [(((formatTemplate tpl content).getD ""),
                 generateTextDefaultMaxTokens)] }) := by
  obtain ⟨P, hP⟩ := Option.isSome_iff_exists.mp h1
  simp only [hP, Option.getD_some] at h2 ⊢
  simp [chunk_and_process, hP, h2, generate_text]

/-- Witness for C4 at a small concrete template. -/
theorem chunk_within_budget_witness :
    chunk_and_process constEnv "Hi \x7bx\x7d" [("x", "there")] 12000
        emptyTrace
      = (some (constEnv.judgeResp emptyTrace.judgeCalls.length
                ((formatTemplate "Hi \x7bx\x7d" [("x", "there")]).getD "")),
         { emptyTrace with judgeCalls := emptyTrace.judgeCalls
            ++ [(((formatTemplate "Hi \x7bx\x7d" [("x", "there")]).getD ""),
                 generateTextDefaultMaxTokens)] }) :=
  chunk_within_budget constEnv "Hi \x7bx\x7d" [("x", "there")] 12000
    emptyTrace rfl rfl

/-- C3: when the rendered prompt exceeds the budget, the summarization
pass issues one capped summarization call per field longer than 8000
characters (`summaryCalls`, in content order), leaves every field of at
most 8000 characters unchanged, and `chunk_and_process` then makes
exactly one final `generate_text` call on the re-rendered template
prefixed by the summarization note, returning its result; the final
call happens whatever the size of the summarized prompt, so no
recursive re-chunking takes place. -/
theorem chunk_oversized_summarizes (env : Env) (tpl : String)
    (content : List (String × String)) (M : Nat) (st : TraceSt)
    (h1 : (formatTemplate tpl content).isSome = true)
    (h2 : withinBudget (strLen ((formatTemplate tpl content).getD "")) M
            = false)
    (h3 : (formatTemplate tpl (summarizeFields env content st).1).isSome
            = true) :
    ((summarizeFields env content st).2
        = { st with judgeCalls := st.judgeCalls ++ summaryCalls content })
    ∧ ((summarizeFields env content st).1.length = content.length)
    ∧ (∀ i kv, content.get? i = some kv →
         ((strLen kv.2 ≤ largeFieldThreshold →
             (summarizeFields env content st).1.get? i = some kv)
          ∧ ∃ v, (summarizeFields env content st).1.get? i
                   = some (kv.1, v)))
    ∧ chunk_and_process env tpl content M st
        = (some (env.judgeResp
                  (st.judgeCalls.length + (summaryCalls content).length)
                  (chunkNote
                    ++ ((formatTemplate tpl
                          (summarizeFields env content st).1).getD ""))),
           { st with judgeCalls := st.judgeCalls ++ summaryCalls content
              ++ [(chunkNote
                    ++ ((formatTemplate tpl
                          (summarizeFields env content st).1).getD ""),
                   generateTextDefaultMaxTokens)] }) := by
  obtain ⟨P, hP⟩ := Option.isSome_iff_exists.mp h1
  obtain ⟨SP, hSP⟩ := Option.isSome_iff_exists.mp h3
  simp only [hP, Option.getD_some] at h2
  refine ⟨summarizeFields_trace env content st,
          summarizeFields_length env content st,
          fun i kv h => summarizeFields_fields env content st i kv h, ?_⟩
  simp only [hSP, Option.getD_some]
  simp [chunk_and_process, hP, h2, hSP, generate_text,
        summarizeFields_trace env content st, List.append_assoc]

/-- Witness for C3: an eleven-character rendered prompt against a
budget of 1 token (estimate 11/4 > 1) takes the oversized path. -/
theorem chunk_oversized_summarizes_witness :
    ((chunk_and_process constEnv "Hello \x7bx\x7d" [("x", "world")] 1
        emptyTrace).1).isSome = true := by
  have h := chunk_oversized_summarizes constEnv "Hello \x7bx\x7d"
    [("x", "world")] 1 emptyTrace rfl rfl rfl
  rw [h.2.2.2]
  rfl

/-- C10: whenever `chunk_and_process` completes, its last judge call is
the single final `generate_text` call, made with the default output cap
of 4000 tokens (the Python default argument, no explicit `max_tokens`);
every earlier call it makes is a summarization call capped at 2000.
The conclusion does not mention `max_tokens_per_chunk`: the budget
parameter only selects the branch through the input-size estimate and
never reaches the output cap of the final call. -/
theorem chunk_final_call_uses_default_cap (env : Env) (tpl : String)
    (content : List (String × String)) (M : Nat) (st : TraceSt)
    (h : ((chunk_and_process env tpl content M st).1).isSome = true) :
    generateTextDefaultMaxTokens = 4000
    ∧ ∃ pre prompt,
        ((chunk_and_process env tpl content M st).2).judgeCalls
          = st.judgeCalls ++ pre ++ [(prompt, generateTextDefaultMaxTokens)]
        ∧ ∀ c ∈ pre, c.2 = summaryMaxTokens := by
  refine ⟨rfl, ?_⟩
  cases hP : formatTemplate tpl content with
  | none => rw [chunk_and_process, hP] at h; simp at h
  | some P =>
    by_cases hB : withinBudget (strLen P) M
    · refine ⟨[], P, ?_, by simp⟩
      simp [chunk_and_process, hP, hB, generate_text]
    · cases hSP : formatTemplate tpl (summarizeFields env content st).1 with
      | none =>
        rw [chunk_and_process, hP] at h
        simp only [eq_self_iff_true, if_neg hB] at h
        rw [hSP] at h
        simp at h
      | some SP =>
        refine ⟨summaryCalls content, chunkNote ++ SP, ?_, ?_⟩
        · simp [chunk_and_process, hP, hB, hSP, generate_text,
                summarizeFields_trace env content st, List.append_assoc]
        · intro c hc
          simp only [summaryCalls, List.mem_map] at hc
          obtain ⟨kv, _, hkv⟩ := hc
          rw [← hkv]

/-- Witness for C10 at the within-budget branch. -/
theorem chunk_final_call_uses_default_cap_witness :
    generateTextDefaultMaxTokens = 4000
    ∧ ∃ pre prompt,
        ((chunk_and_process constEnv "Hi \x7bx\x7d" [("x", "there")] 12000
            emptyTrace).2).judgeCalls
          = emptyTrace.judgeCalls ++ pre
            ++ [(prompt, generateTextDefaultMaxTokens)]
        ∧ ∀ c ∈ pre, c.2 = summaryMaxTokens :=
  chunk_final_call_uses_default_cap constEnv "Hi \x7bx\x7d" [("x", "there")]
    12000 emptyTrace rfl

/-- `chunk_and_process` touches only the judge-call log: agent calls,
received repeatability arguments and file writes pass through. -/
theorem chunk_preserves (env : Env) (tpl : String)
    (content : List (String × String)) (M : Nat) (st : TraceSt) :
    ((chunk_and_process env tpl content M st).2).agentCalls = st.agentCalls
    ∧ ((chunk_and_process env tpl content M st).2).repeatEvalReceived
        = st.repeatEvalReceived
    ∧ ((chunk_and_process env tpl content M st).2).fileWrites
        = st.fileWrites := by
  cases hP : formatTemplate tpl content with
  | none => simp [chunk_and_process, hP]
  | some P =>
    by_cases hB : withinBudget (strLen P) M
    · simp [chunk_and_process, hP, hB, generate_text]
    · cases hSP : formatTemplate tpl (summarizeFields env content st).1 with
      | none =>
        simp [chunk_and_process, hP, hB, hSP,
              summarizeFields_trace env content st]
      | some SP =>
        simp [chunk_and_process, hP, hB, hSP, generate_text,
              summarizeFields_trace env content st]

/-- The repeatability loop returns `n` responses, queries the agent `n`
times with the same query text, touches nothing else in the trace, and
its `i`-th response is the agent answer to the call at offset `i`. -/
theorem collectResponses_spec (env : Env) (q : String) :
    ∀ (n : Nat) (st : TraceSt),
      ((collectResponses env q n st).1.length = n)
      ∧ ((collectResponses env q n st).2.agentCalls
          = st.agentCalls ++ List.replicate n q)
      ∧ ((collectResponses env q n st).2.judgeCalls = st.judgeCalls)
      ∧ ((collectResponses env q n st).2.repeatEvalReceived
          = st.repeatEvalReceived)
      ∧ ((collectResponses env q n st).2.fileWrites = st.fileWrites)
      ∧ (∀ i, i < n →
          (collectResponses env q n st).1.get? i
            = some (env.agentResp (st.agentCalls.length + i) q)) := by
  intro n
  induction n with
  | zero =>
    intro st
    refine ⟨by simp [collectResponses], by simp [collectResponses],
            by simp [collectResponses], by simp [collectResponses],
            by simp [collectResponses], ?_⟩
    intro i hi
    omega
  | succ m ih =>
    intro st
    have ihm := ih (execute_query env q st).2
    refine ⟨?_, ?_, ?_, ?_, ?_, ?_⟩
    · simp [collectResponses, ihm.1]
    · rw [show (collectResponses env q (m + 1) st).2
            = (collectResponses env q m (execute_query env q st).2).2
          from rfl, ihm.2.1]
      simp [execute_query, List.replicate_succ]
    · rw [show (collectResponses env q (m + 1) st).2
            = (collectResponses env q m (execute_query env q st).2).2
          from rfl, ihm.2.2.1]
      simp [execute_query]
    · rw [show (collectResponses env q (m + 1) st).2
            = (collectResponses env q m (execute_query env q st).2).2
          from rfl, ihm.2.2.2.1]
      simp [execute_query]
    · rw [show (collectResponses env q (m + 1) st).2
            = (collectResponses env q m (execute_query env q st).2).2
          from rfl, ihm.2.2.2.2.1]
      simp [execute_query]
    · intro i hi
      cases i with
      | zero =>
        simp [collectResponses, execute_query]
      | succ j =>
        have hj : j < m := by omega
        have hg := ihm.2.2.2.2.2 j hj
        rw [show (collectResponses env q (m + 1) st).1
              = (execute_query env q st).1
                :: (collectResponses env q m (execute_query env q st).2).1
            from rfl]
        rw [List.get?_cons_succ, hg]
        simp [execute_query, Nat.add_assoc, Nat.add_comm 1 j]

/-- `evaluate_repeatability` records the pair it received at the head
of its run and touches neither the agent log nor the file writes; this
holds on the failing path (fewer than 5 responses) and the judge path
alike. -/
theorem evaluate_repeatability_trace (cfg : Config) (env : Env)
    (q : String) (rs : List String) (st : TraceSt) :
    ((evaluate_repeatability cfg env q rs st).2).repeatEvalReceived
      = st.repeatEvalReceived ++ [(q, rs)]
    ∧ ((evaluate_repeatability cfg env q rs st).2).agentCalls
        = st.agentCalls
    ∧ ((evaluate_repeatability cfg env q rs st).2).fileWrites
        = st.fileWrites := by
  cases h0 : rs.get? 0 <;> cases h1 : rs.get? 1 <;> cases h2 : rs.get? 2
    <;> cases h3 : rs.get? 3 <;> cases h4 : rs.get? 4
    <;> simp only [evaluate_repeatability, h0, h1, h2, h3, h4]
    <;> simp [(chunk_preserves env repeatability_prompt _
                cfg.max_tokens_per_call _).1,
              (chunk_preserves env repeatability_prompt _
                cfg.max_tokens_per_call _).2.1,
              (chunk_preserves env repeatability_prompt _
                cfg.max_tokens_per_call _).2.2]

/-- The visibility evaluation touches only the judge-call log. -/
theorem evaluate_visibility_preserves (cfg : Config) (env : Env)
    (q r : String) (st : TraceSt) :
    ((evaluate_visibility cfg env q r st).2).agentCalls = st.agentCalls
    ∧ ((evaluate_visibility cfg env q r st).2).repeatEvalReceived
        = st.repeatEvalReceived
    ∧ ((evaluate_visibility cfg env q r st).2).fileWrites = st.fileWrites := by
  rw [evaluate_visibility]
  exact chunk_preserves env visibility_prompt _ cfg.max_tokens_per_call st

/-- The synthesis step touches only the judge-call log. -/
theorem generate_report_preserves (cfg : Config) (env : Env)
    (v r : String) (st : TraceSt) :
    ((generate_report cfg env v r st).2).agentCalls = st.agentCalls
    ∧ ((generate_report cfg env v r st).2).repeatEvalReceived
        = st.repeatEvalReceived
    ∧ ((generate_report cfg env v r st).2).fileWrites = st.fileWrites := by
  rw [generate_report]
  exact chunk_preserves env report_prompt _ cfg.max_tokens_per_call st

/-- C2: whenever `test_prompt` completes, the repeatability evaluation
received exactly one argument pair for this prompt: the same query text
that the visibility evaluation used, together with exactly
`repeat_count` responses, each the agent answer to one of the
`repeat_count` consecutive probe calls that all sent that query text;
the agent trace of the whole prompt is `1 + repeat_count` copies of the
query (one visibility call, then the repeatability loop). -/
theorem test_prompt_repeatability_inputs (cfg : Config) (env : Env)
    (p : TestPrompt) (st : TraceSt)
    (h : ((test_prompt cfg env p st).1).isSome = true) :
    ∃ rs,
      ((test_prompt cfg env p st).2).repeatEvalReceived
        = st.repeatEvalReceived ++ [(p.text, rs)]
      ∧ rs.length = cfg.repeat_count
      ∧ (∀ i, i < cfg.repeat_count →
          rs.get? i
            = some (env.agentResp (st.agentCalls.length + 1 + i) p.text))
      ∧ ((test_prompt cfg env p st).2).agentCalls
          = st.agentCalls ++ List.replicate (1 + cfg.repeat_count) p.text := by
  rcases hv : evaluate_visibility cfg env p.text
      (execute_query env p.text st).1 (execute_query env p.text st).2
    with ⟨vopt, st2⟩
  have hv2 : (evaluate_visibility cfg env p.text
      (execute_query env p.text st).1 (execute_query env p.text st).2).2
        = st2 := by rw [hv]
  cases vopt with
  | none =>
    rw [test_prompt] at h
    simp only [hv] at h
    simp at h
  | some vis =>
    rcases hr : evaluate_repeatability cfg env p.text
        (collectResponses env p.text cfg.repeat_count st2).1
        (collectResponses env p.text cfg.repeat_count st2).2
      with ⟨ropt, st3⟩
    have hr2 : (evaluate_repeatability cfg env p.text
        (collectResponses env p.text cfg.repeat_count st2).1
        (collectResponses env p.text cfg.repeat_count st2).2).2 = st3 := by
      rw [hr]
    cases ropt with
    | none =>
      rw [test_prompt] at h
      simp only [hv, hr] at h
      simp at h
    | some rep =>
      rcases hg : generate_report cfg env vis rep st3 with ⟨gopt, st4⟩
      have hg2 : (generate_report cfg env vis rep st3).2 = st4 := by rw [hg]
      cases gopt with
      | none =>
        rw [test_prompt] at h
        simp only [hv, hr, hg] at h
        simp at h
      | some report =>
        have hfin : (test_prompt cfg env p st).2 = st4 := by
          rw [test_prompt]
          simp only [hv, hr, hg]
        have hvpres := evaluate_visibility_preserves cfg env p.text
          (execute_query env p.text st).1 (execute_query env p.text st).2
        rw [hv2] at hvpres
        have hcoll := collectResponses_spec env p.text cfg.repeat_count st2
        have hrtr := evaluate_repeatability_trace cfg env p.text
          (collectResponses env p.text cfg.repeat_count st2).1
          (collectResponses env p.text cfg.repeat_count st2).2
        rw [hr2] at hrtr
        have hgpres := generate_report_preserves cfg env vis rep st3
        rw [hg2] at hgpres
        refine ⟨(collectResponses env p.text cfg.repeat_count st2).1,
                ?_, hcoll.1, ?_, ?_⟩
        · rw [hfin, hgpres.2.1, hrtr.1, hcoll.2.2.2.1, hvpres.2.1]
          simp [execute_query]
        · intro i hi
          rw [hcoll.2.2.2.2.2 i hi, hvpres.1]
          simp [execute_query, List.length_append]
        · rw [hfin, hgpres.1, hrtr.2.1, hcoll.2.1, hvpres.1,
              Nat.add_comm 1 cfg.repeat_count]
          simp [execute_query, List.replicate_succ, List.append_assoc]

/-- Witness for C2: a complete concrete `test_prompt` run with
`repeat_count = 5`. -/
theorem test_prompt_repeatability_inputs_witness :
    ((test_prompt sampleConfig constEnv ⟨some "p1", none, "t1"⟩
        emptyTrace).1).isSome = true
    ∧ ∃ rs,
        ((test_prompt sampleConfig constEnv ⟨some "p1", none, "t1"⟩
            emptyTrace).2).repeatEvalReceived
          = emptyTrace.repeatEvalReceived ++ [("t1", rs)]
        ∧ rs.length = sampleConfig.repeat_count
        ∧ (∀ i, i < sampleConfig.repeat_count →
            rs.get? i = some (constEnv.agentResp
              (emptyTrace.agentCalls.length + 1 + i) "t1"))
        ∧ ((test_prompt sampleConfig constEnv ⟨some "p1", none, "t1"⟩
              emptyTrace).2).agentCalls
            = emptyTrace.agentCalls
              ++ List.replicate (1 + sampleConfig.repeat_count) "t1" :=
  ⟨rfl, test_prompt_repeatability_inputs sampleConfig constEnv
    ⟨some "p1", none, "t1"⟩ emptyTrace rfl⟩

/-- `test_prompt` never writes a file. -/
theorem test_prompt_fileWrites (cfg : Config) (env : Env) (p : TestPrompt)
    (st : TraceSt) :
    ((test_prompt cfg env p st).2).fileWrites = st.fileWrites := by
  rcases hv : evaluate_visibility cfg env p.text
      (execute_query env p.text st).1 (execute_query env p.text st).2
    with ⟨vopt, st2⟩
  have hv2 : (evaluate_visibility cfg env p.text
      (execute_query env p.text st).1 (execute_query env p.text st).2).2
        = st2 := by rw [hv]
  have hvp := evaluate_visibility_preserves cfg env p.text
    (execute_query env p.text st).1 (execute_query env p.text st).2
  rw [hv2] at hvp
  have hvf : st2.fileWrites = st.fileWrites := by
    rw [hvp.2.2]
    simp [execute_query]
  cases vopt with
  | none =>
    rw [test_prompt]
    simp only [hv]
    exact hvf
  | some vis =>
    rcases hr : evaluate_repeatability cfg env p.text
        (collectResponses env p.text cfg.repeat_count st2).1
        (collectResponses env p.text cfg.repeat_count st2).2
      with ⟨ropt, st3⟩
    have hr2 : (evaluate_repeatability cfg env p.text
        (collectResponses env p.text cfg.repeat_count st2).1
        (collectResponses env p.text cfg.repeat_count st2).2).2 = st3 := by
      rw [hr]
    have hrt := evaluate_repeatability_trace cfg env p.text
      (collectResponses env p.text cfg.repeat_count st2).1
      (collectResponses env p.text cfg.repeat_count st2).2
    rw [hr2] at hrt
    have hcf := (collectResponses_spec env p.text cfg.repeat_count st2).2.2.2.2.1
    have hrf : st3.fileWrites = st.fileWrites := by rw [hrt.2.2, hcf, hvf]
    cases ropt with
    | none =>
      rw [test_prompt]
      simp only [hv, hr]
      exact hrf
    | some rep =>
      rcases hg : generate_report cfg env vis rep st3 with ⟨gopt, st4⟩
      have hg2 : (generate_report cfg env vis rep st3).2 = st4 := by rw [hg]
      have hgp := generate_report_preserves cfg env vis rep st3
      rw [hg2] at hgp
      have hgf : st4.fileWrites = st.fileWrites := by rw [hgp.2.2, hrf]
      cases gopt with
      | none =>
        rw [test_prompt]
        simp only [hv, hr, hg]
        exact hgf
      | some report =>
        rw [test_prompt]
        simp only [hv, hr, hg]
        exact hgf

/-- The prompt loop never writes a file. -/
theorem runAll_fileWrites (cfg : Config) (env : Env) :
    ∀ (ps : List TestPrompt) (st : TraceSt),
      ((runAll cfg env ps st).2).fileWrites = st.fileWrites := by
  intro ps
  induction ps with
  | nil => intro st; rfl
  | cons p rest ih =>
    intro st
    rw [show runAll cfg env (p :: rest) st
        = runAllCons (test_prompt cfg env p st) (runAll cfg env rest)
        from rfl]
    rcases ht : test_prompt cfg env p st with ⟨topt, st2⟩
    have ht2 : (test_prompt cfg env p st).2 = st2 := by rw [ht]
    have htf := test_prompt_fileWrites cfg env p st
    rw [ht2] at htf
    cases topt with
    | none => exact htf
    | some r =>
      rcases hA : runAll cfg env rest st2 with ⟨ropt, st3⟩
      have hA2 : (runAll cfg env rest st2).2 = st3 := by rw [hA]
      have hAf := ih st2
      rw [hA2] at hAf
      rw [runAllCons]
      simp only [hA]
      cases ropt with
      | none => simp only []; rw [hAf, htf]
      | some rs => simp only []; rw [hAf, htf]

/-- C8: whenever `run_tests` completes on a non-empty prompt list, it
appends exactly one file write, at the configured `report_path`
(default `agent_reliability_report.md` when none is configured), whose
content is exactly the string it returns to the caller. -/
theorem run_tests_persists_report (cfg : Config) (env : Env)
    (doc : PromptsDoc) (date : String) (st : TraceSt)
    (hne : load_prompts doc ≠ [])
    (h : ((run_tests cfg env doc date st).1).isSome = true) :
    ∃ r, (run_tests cfg env doc date st).1 = some r
      ∧ ((run_tests cfg env doc date st).2).fileWrites
          = st.fileWrites ++ [(cfg.report_path.getD defaultReportPath, r)]
      ∧ defaultReportPath = "agent_reliability_report.md" := by
  have hE : (load_prompts doc).isEmpty = false := by
    cases hl : load_prompts doc with
    | nil => exact absurd hl hne
    | cons a l => rfl
  rcases hA : runAll cfg env (load_prompts doc) st with ⟨ropt, st2⟩
  have hA2 : (runAll cfg env (load_prompts doc) st).2 = st2 := by rw [hA]
  have hAf := runAll_fileWrites cfg env (load_prompts doc) st
  rw [hA2] at hAf
  cases ropt with
  | none =>
    rw [run_tests] at h
    simp only [hE, Bool.false_eq_true, if_false, hA] at h
    simp at h
  | some results =>
    have hrun : run_tests cfg env doc date st
        = (some (combine_reports cfg date results),
           { st2 with fileWrites := st2.fileWrites
              ++ [(cfg.report_path.getD defaultReportPath,
                   combine_reports cfg date results)] }) := by
      rw [run_tests]
      simp only [hE, Bool.false_eq_true, if_false, hA]
    refine ⟨combine_reports cfg date results, ?_, ?_, rfl⟩
    · rw [hrun]
    · rw [hrun]
      simp [hAf]

/-- Witness for C8: a complete concrete `run_tests` run on a one-entry
document, with no configured report path. -/
theorem run_tests_persists_report_witness :
    ((run_tests sampleConfig constEnv sampleDoc1 "2026-10-12"
        emptyTrace).1).isSome = true
    ∧ ∃ r, (run_tests sampleConfig constEnv sampleDoc1 "2026-10-12"
          emptyTrace).1 = some r
        ∧ ((run_tests sampleConfig constEnv sampleDoc1 "2026-10-12"
            emptyTrace).2).fileWrites
          = emptyTrace.fileWrites
            ++ [(sampleConfig.report_path.getD defaultReportPath, r)]
        ∧ defaultReportPath = "agent_reliability_report.md" :=
  ⟨rfl, run_tests_persists_report sampleConfig constEnv sampleDoc1
    "2026-10-12" emptyTrace (by decide) rfl⟩

/-- When every pattern misses, the ordered matcher returns nothing. -/
theorem firstMatch_eq_none (ps : List (String × Bool × Bool))
    (report : String) :
    (∀ p ∈ ps, runPattern p report = none) →
    firstMatch ps report = none := by
  induction ps with
  | nil => intro _; rfl
  | cons p rest ih =>
    intro h
    have hp := h p (List.mem_cons_self p rest)
    simp only [firstMatch, hp]
    exact ih (fun q hq => h q (List.mem_cons_of_mem p hq))

/-- When the pattern at position `i` matches and every earlier pattern
misses, the ordered matcher returns the match of pattern `i`. -/
theorem firstMatch_of_first :
    ∀ (ps : List (String × Bool × Bool)) (report : String) (i : Nat)
      (p : String × Bool × Bool) (g : String),
      ps.get? i = some p → runPattern p report = some g →
      (∀ j pj, j < i → ps.get? j = some pj → runPattern pj report = none) →
      firstMatch ps report = some g := by
  intro ps
  induction ps with
  | nil => intro report i p g hget; simp at hget
  | cons q rest ih =>
    intro report i p g hget hrun hearlier
    cases i with
    | zero =>
      simp only [List.get?] at hget
      injection hget with hget
      subst hget
      simp only [firstMatch, hrun]
    | succ n =>
      have hq : runPattern q report = none := hearlier 0 q (by omega) rfl
      simp only [firstMatch, hq]
      exact ih report n p g hget hrun
        (fun j pj hj hgj => hearlier (j + 1) pj (by omega) hgj)

/-- C1: in the combined report, every summary-table row carries exactly
`extractScore` of the per-prompt report text; `extractScore` returns
the first captured group of the first pattern of `score_patterns` (in
the fixed priority order) that matches, and the literal `"N/A"` when
none matches; on the concrete examples, `"Overall Reliability Score:
7.5/10"` yields `"7.5"` (via the third pattern: the first two require
the contiguous phrase `overall score`), and text containing both
`"reliability score of 8"` and `"Overall Reliability Score: 6.0/10"`
yields `"6.0"`, the value of the first matching pattern. -/
theorem score_extraction_spec :
    (∀ res : PromptResult,
        summaryRow res
          = "| " ++ promptIdOf res.prompt ++ " | " ++ promptDescOf res.prompt
            ++ " | " ++ extractScore res.report ++ " |\n")
    ∧ (∀ (report : String) (i : Nat) (p : String × Bool × Bool) (g : String),
        score_patterns.get? i = some p → runPattern p report = some g →
        (∀ j pj, j < i → score_patterns.get? j = some pj →
          runPattern pj report = none) →
        extractScore report = g)
    ∧ (∀ report : String,
        (∀ p ∈ score_patterns, runPattern p report = none) →
        extractScore report = "N/A")
    ∧ extractScore "Overall Reliability Score: 7.5/10" = "7.5"
    ∧ extractScore
        "The agent got a reliability score of 8. Overall Reliability Score: 6.0/10"
        = "6.0" := by
  refine ⟨fun res => rfl, ?_, ?_, by decide, by decide⟩
  · intro report i p g hget hrun hearlier
    rw [extractScore,
        firstMatch_of_first score_patterns report i p g hget hrun hearlier]
    rfl
  · intro report hall
    rw [extractScore, firstMatch_eq_none score_patterns report hall]
    rfl

/-- Witness for C1: on `"overall score was 9"` the first pattern (which
requires `/10`) misses and the second matches with group `"9"`. -/
theorem score_extraction_spec_witness :
    extractScore "overall score was 9" = "9" :=
  score_extraction_spec.2.1 "overall score was 9" 1
    ("overall score", true, false) "9" (by decide) (by decide)
    (by
      intro j pj hj hget
      interval_cases j
      simp only [score_patterns, List.get?] at hget
      injection hget with hget
      subst hget
      decide)

end AgentReliability
